import Mathlib

/-!
Shallow embedding of the Salvium Guardian server (guardian server source,
`src/unnamed/part_001`): an automated 2-of-3 multisig escrow participant.

The server state consists of three maps keyed by bounty id (JS `Map`s,
modelled as association lists preserving insertion order):
  - `pendingEscrows` : in-progress escrow sessions (wallet handle, own
    round-1 payload, creation timestamp in ms),
  - `bountyData`     : finalized bounty records (persisted to disk),
  - `activeWallets`  : wallet handles kept for signing after finalize,
plus the `isInitialized` flag set at startup.

Wallet objects of the WASM crypto engine are modelled as `Nat` handles
allocated from a counter `nextWallet`; a call to `wallet.delete()` is
modelled by appending the handle to the `released` list, so that
release-exactly-once properties can be stated by counting occurrences.

The external WASM crypto engine is opaque; it is modelled as a structure
of functions from a wallet handle (and the other JS arguments) to result
records, mirroring the parsed JSON results the server inspects.  The JS
code passes lists of payloads through `JSON.stringify`; since the engine
is opaque, the serialized list is modelled as the `List String` itself.
-/

/-- Result of `wallet.prepare_multisig()` after `JSON.parse`. -/
structure PrepResult where
  success : Bool
  multisig_info : String
  error : String
deriving DecidableEq

/-- Result of `wallet.make_multisig(...)` after `JSON.parse`. -/
structure MakeResult where
  success : Bool
  multisig_info : String
  error : String
deriving DecidableEq

/-- Result of `wallet.exchange_multisig_keys(...)` after `JSON.parse`. -/
structure KexResult where
  success : Bool
  address : String
  is_ready : Bool
  error : String
deriving DecidableEq

/-- Result of `wallet.export_multisig_info()` after `JSON.parse`. -/
structure ExportResult where
  success : Bool
  info : String
  error : String
deriving DecidableEq

/-- Result of `wallet.import_multisig_info(...)` after `JSON.parse`. -/
structure ImportResult where
  success : Bool
  n_outputs : Nat
  error : String
deriving DecidableEq

/-- Result of `wallet.sign_multisig_tx_hex(...)` after `JSON.parse`. -/
structure SignResult where
  success : Bool
  tx_data_hex : String
  signers : String
  ready : Bool
  error : String
deriving DecidableEq

/-- The opaque WASM crypto engine, viewed through the calls the server
makes.  Every wallet method takes the wallet handle as first argument.
`has_describe` / `has_sign` model the JS `typeof wallet.f === 'function'`
checks (the loaded WASM may lack these methods). -/
structure Engine where
  prepare_multisig : Nat → PrepResult
  make_multisig : Nat → String → Nat → List String → MakeResult
  exchange_multisig_keys : Nat → String → List String → KexResult
  get_seed : Nat → String → String
  export_multisig_info : Nat → ExportResult
  import_multisig_info : Nat → List String → ImportResult
  has_describe : Bool
  describe_multisig_tx_hex : Nat → String → String
  has_sign : Bool
  sign_multisig_tx_hex : Nat → String → SignResult

/-- One entry of `pendingEscrows`: wallet handle, guardian round-1
payload, creation time (`Date.now()` in ms). -/
structure PendingEscrow where
  wallet : Nat
  guardian_round1 : String
  created_at : Nat
deriving DecidableEq

/-- One entry of `bountyData` (the persisted bounty record built in
`/finalize-escrow`). -/
structure BountyInfo where
  bounty_id : String
  deadline_block : Int
  multisig_address : String
  is_ready : Bool
  created_at : String
  wallet_mnemonic : String
deriving DecidableEq

/-- The mutable server state. -/
structure GuardianState where
  isInitialized : Bool
  pendingEscrows : List (String × PendingEscrow)
  bountyData : List (String × BountyInfo)
  activeWallets : List (String × Nat)
  nextWallet : Nat
  released : List Nat
deriving DecidableEq

/-- Look a key up in an association list (JS `Map.get`). -/
def lookupKey : List (String × α) → String → Option α
  | [], _ => none
  | (k, v) :: rest, key => if k = key then some v else lookupKey rest key

/-- JS `Map.has`. -/
def hasKey (l : List (String × α)) (key : String) : Bool :=
  (lookupKey l key).isSome

/-- JS `Map.set`: update in place if the key exists, else append. -/
def setKey : List (String × α) → String → α → List (String × α)
  | [], key, v => [(key, v)]
  | (k, w) :: rest, key, v =>
      if k = key then (key, v) :: rest else (k, w) :: setKey rest key v

/-- JS `Map.delete`. -/
def eraseKey (l : List (String × α)) (key : String) : List (String × α) :=
  l.filter (fun p => p.1 ≠ key)

/-- JS truthiness of a possibly-absent string field (`!x` fails for
`undefined` and for the empty string). -/
def truthyStr : Option String → Bool
  | none => false
  | some s => s ≠ ""

/-- JS truthiness of a possibly-absent numeric field (`!x` fails for
`undefined` and for `0`). -/
def truthyInt : Option Int → Bool
  | none => false
  | some n => n ≠ 0

/-- The 5-minute TTL (`5 * 60 * 1000` ms) for pending escrows. -/
def TTL_MS : Nat := 5 * 60 * 1000

/-- The sweeper period (`60 * 1000` ms) of the `setInterval` call. -/
def SWEEP_PERIOD_MS : Nat := 60 * 1000

/-- The cleanup sweeper body: every pending escrow with
`now - created_at > TTL_MS` has its wallet deleted and its entry removed.
(`Date.now()` values are Nat ms; for `created_at > now` JS would compute a
negative age, Nat truncation gives `0` — the strict `> TTL_MS` comparison
agrees in both models.) -/
def cleanupSweep (st : GuardianState) (now : Nat) : GuardianState :=
  let stale := fun (p : String × PendingEscrow) =>
    decide (now - p.2.created_at > TTL_MS)
  { st with
    pendingEscrows := st.pendingEscrows.filter (fun p => !(stale p)),
    released := st.released ++
      (st.pendingEscrows.filter stale).map (fun p => p.2.wallet) }

/-- Response of `GET /health`. -/
structure HealthResp where
  status : String
  initialized : Bool
  pendingEscrows : Nat
  completedBounties : Nat
deriving DecidableEq

/-- `GET /health`. -/
def health (st : GuardianState) : HealthResp :=
  { status := "ok", initialized := st.isInitialized,
    pendingEscrows := st.pendingEscrows.length,
    completedBounties := st.bountyData.length }

/-- Responses of `POST /init-escrow`. -/
inductive InitResp where
  | notInitialized
  | missingField
  | conflict
  | engineFailure (msg : String)
  | ok (bounty_id guardian_round1 : String)
deriving DecidableEq

/-- HTTP status of an `/init-escrow` response. -/
def InitResp.httpStatus : InitResp → Nat
  | .notInitialized => 503
  | .missingField => 400
  | .conflict => 409
  | .engineFailure _ => 500
  | .ok _ _ => 200

/-- `POST /init-escrow`: create a wallet, run multisig round 1, store a
pending escrow.  A bounty id already finalized is a 409 conflict; an id
with an existing *pending* escrow has that escrow deleted and replaced.
`now` is `Date.now()`. -/
def init_escrow (eng : Engine) (st : GuardianState)
    (bounty_id? : Option String) (now : Nat) : InitResp × GuardianState :=
  if !st.isInitialized then (.notInitialized, st)
  else if !truthyStr bounty_id? then (.missingField, st)
  else
    let bounty_id := bounty_id?.getD ""
    if hasKey st.bountyData bounty_id then (.conflict, st)
    else
      let st1 :=
        match lookupKey st.pendingEscrows bounty_id with
        | some e =>
            { st with released := st.released ++ [e.wallet],
                      pendingEscrows := eraseKey st.pendingEscrows bounty_id }
        | none => st
      let wallet := st1.nextWallet
      let st2 := { st1 with nextWallet := st1.nextWallet + 1 }
      let prepResult := eng.prepare_multisig wallet
      if !prepResult.success then
        (.engineFailure ("Failed to prepare multisig: " ++ prepResult.error),
         { st2 with released := st2.released ++ [wallet] })
      else
        (.ok bounty_id prepResult.multisig_info,
         { st2 with pendingEscrows := setKey st2.pendingEscrows bounty_id ⟨wallet, prepResult.multisig_info, now⟩ })

/-- Request body of `POST /finalize-escrow`. -/
structure FinalizeReq where
  bounty_id : Option String
  deadline_block : Option Int
  server_round1 : Option String
  server_round2 : Option String
  worker_round1 : Option String
  worker_round2 : Option String
deriving DecidableEq

/-- Responses of `POST /finalize-escrow`. -/
inductive FinalizeResp where
  | notInitialized
  | missingFields
  | pendingNotFound
  | engineFailure (msg : String)
  | ok (bounty_id guardian_round1 guardian_round2 multisig_address : String)
       (is_ready : Bool)
deriving DecidableEq

/-- HTTP status of a `/finalize-escrow` response. -/
def FinalizeResp.httpStatus : FinalizeResp → Nat
  | .notInitialized => 503
  | .missingFields => 400
  | .pendingNotFound => 404
  | .engineFailure _ => 500
  | .ok _ _ _ _ _ => 200

/-- `POST /finalize-escrow`: run `make_multisig` on the ordered round-1
triple `[guardian, server, worker]`, then `exchange_multisig_keys` on the
ordered round-2 triple `[guardian, server, worker]`; on success move the
session from `pendingEscrows` to `bountyData` (recording the exported
seed) and keep the wallet in `activeWallets`.  `now` is the ISO creation
timestamp string. -/
def finalize_escrow (eng : Engine) (st : GuardianState) (req : FinalizeReq)
    (now : String) : FinalizeResp × GuardianState :=
  if !st.isInitialized then (.notInitialized, st)
  else if !(truthyStr req.bounty_id && truthyInt req.deadline_block &&
            truthyStr req.server_round1 && truthyStr req.server_round2 &&
            truthyStr req.worker_round1 && truthyStr req.worker_round2) then
    (.missingFields, st)
  else
    let bounty_id := req.bounty_id.getD ""
    match lookupKey st.pendingEscrows bounty_id with
    | none => (.pendingNotFound, st)
    | some pending =>
      let wallet := pending.wallet
      let guardian_round1 := pending.guardian_round1
      let allRound1 :=
        [guardian_round1, req.server_round1.getD "", req.worker_round1.getD ""]
      let makeResult := eng.make_multisig wallet "" 2 allRound1
      if !makeResult.success then
        (.engineFailure ("Failed to make multisig: " ++ makeResult.error), st)
      else
        let guardian_round2 := makeResult.multisig_info
        let allRound2 :=
          [guardian_round2, req.server_round2.getD "", req.worker_round2.getD ""]
        let kexResult := eng.exchange_multisig_keys wallet "" allRound2
        if !kexResult.success then
          (.engineFailure ("Failed to exchange keys: " ++ kexResult.error), st)
        else
          let multisig_address := kexResult.address
          let bountyInfo : BountyInfo :=
            { bounty_id := bounty_id,
              deadline_block := req.deadline_block.getD 0,
              multisig_address := multisig_address,
              is_ready := kexResult.is_ready,
              created_at := now,
              wallet_mnemonic := eng.get_seed wallet "" }
          let st1 :=
            { st with
              pendingEscrows := eraseKey st.pendingEscrows bounty_id,
              bountyData := setKey st.bountyData bounty_id bountyInfo,
              activeWallets := setKey st.activeWallets bounty_id wallet }
          (.ok bounty_id guardian_round1 guardian_round2 multisig_address
             kexResult.is_ready, st1)

/-- Responses of `POST /sync-outputs`. -/
inductive SyncResp where
  | notInitialized
  | missingField
  | notFound
  | walletNotInMemory
  | engineFailure (msg : String)
  | ok (bounty_id guardian_multisig_info : String)
deriving DecidableEq

/-- HTTP status of a `/sync-outputs` response. -/
def SyncResp.httpStatus : SyncResp → Nat
  | .notInitialized => 503
  | .missingField => 400
  | .notFound => 404
  | .walletNotInMemory => 400
  | .engineFailure _ => 500
  | .ok _ _ => 200

/-- `POST /sync-outputs`: export this wallet's multisig info; if the
caller supplied an array of counterpart infos, import them — an import
failure is only logged and has no effect on the response.  The handler
never mutates the three maps, so it returns only the response.
`other?` is `some l` exactly when `other_multisig_info` is present and
`Array.isArray` holds. -/
def sync_outputs (eng : Engine) (st : GuardianState)
    (bounty_id? : Option String) (other? : Option (List String)) : SyncResp :=
  if !st.isInitialized then .notInitialized
  else if !truthyStr bounty_id? then .missingField
  else
    let bounty_id := bounty_id?.getD ""
    if !(hasKey st.bountyData bounty_id) then .notFound
    else
      match lookupKey st.activeWallets bounty_id with
      | none => .walletNotInMemory
      | some wallet =>
        let exportResult := eng.export_multisig_info wallet
        if !exportResult.success then
          .engineFailure ("Failed to export multisig info: " ++ exportResult.error)
        else
          let guardian_multisig_info := exportResult.info
          let _importLog :=
            match other? with
            | some other => some (eng.import_multisig_info wallet other)
            | none => none
          .ok bounty_id guardian_multisig_info

/-- Request body of `POST /sign-refund`.  Note the JS code tests
`current_block === undefined` (presence, not truthiness) but `!bounty_id`
and `!tx_data_hex` (truthiness). -/
structure RefundReq where
  bounty_id : Option String
  current_block : Option Int
  tx_data_hex : Option String
deriving DecidableEq

/-- Responses of `POST /sign-refund` and `POST /sign-payout`. -/
inductive SignResp where
  | notInitialized
  | missingFields
  | notFound
  | deadlineNotReached (current_block deadline_block blocks_remaining : Int)
  | walletNotInMemory
  | signNotAvailable
  | engineFailure (msg : String)
  | ok (bounty_id tx_data_hex signers : String) (ready : Bool)
deriving DecidableEq

/-- HTTP status of a signing response. -/
def SignResp.httpStatus : SignResp → Nat
  | .notInitialized => 503
  | .missingFields => 400
  | .notFound => 404
  | .deadlineNotReached _ _ _ => 403
  | .walletNotInMemory => 400
  | .signNotAvailable => 501
  | .engineFailure _ => 500
  | .ok _ _ _ _ => 200

/-- The describe-and-sign step shared by the refund try-block: describe
the transaction when the engine has `describe_multisig_tx_hex` (result is
only logged), then check `sign_multisig_tx_hex` exists and sign. -/
def describeAndSignRefund (eng : Engine) (wallet : Nat)
    (bounty_id tx_data_hex : String) : SignResp :=
  let _descLog :=
    if eng.has_describe then some (eng.describe_multisig_tx_hex wallet tx_data_hex)
    else none
  if !eng.has_sign then .signNotAvailable
  else
    let signResult := eng.sign_multisig_tx_hex wallet tx_data_hex
    if !signResult.success then
      .engineFailure ("Failed to sign refund: " ++ signResult.error)
    else
      .ok bounty_id signResult.tx_data_hex signResult.signers signResult.ready

/-- `POST /sign-refund`: deadline-gated signing.  The maps are never
mutated, so only the response is returned. -/
def sign_refund (eng : Engine) (st : GuardianState) (req : RefundReq) :
    SignResp :=
  if !st.isInitialized then .notInitialized
  else if !(truthyStr req.bounty_id && req.current_block.isSome &&
            truthyStr req.tx_data_hex) then .missingFields
  else
    let bounty_id := req.bounty_id.getD ""
    match lookupKey st.bountyData bounty_id with
    | none => .notFound
    | some bountyInfo =>
      let current_block := req.current_block.getD 0
      if current_block < bountyInfo.deadline_block then
        .deadlineNotReached current_block bountyInfo.deadline_block
          (bountyInfo.deadline_block - current_block)
      else
        match lookupKey st.activeWallets bounty_id with
        | none => .walletNotInMemory
        | some wallet =>
          describeAndSignRefund eng wallet bounty_id (req.tx_data_hex.getD "")

/-- The describe-and-sign step of the payout try-block (identical to the
refund one except for the error prefix and the absence of the
`has_describe`-guarded hint object). -/
def describeAndSignPayout (eng : Engine) (wallet : Nat)
    (bounty_id tx_data_hex : String) : SignResp :=
  let _descLog :=
    if eng.has_describe then some (eng.describe_multisig_tx_hex wallet tx_data_hex)
    else none
  if !eng.has_sign then .signNotAvailable
  else
    let signResult := eng.sign_multisig_tx_hex wallet tx_data_hex
    if !signResult.success then
      .engineFailure ("Failed to sign payout: " ++ signResult.error)
    else
      .ok bounty_id signResult.tx_data_hex signResult.signers signResult.ready

/-- `POST /sign-payout`: same as refund signing but with no deadline
check; `reason` is only logged. -/
def sign_payout (eng : Engine) (st : GuardianState)
    (bounty_id? : Option String) (tx_data_hex? : Option String)
    (reason : Option String) : SignResp :=
  if !st.isInitialized then .notInitialized
  else if !(truthyStr bounty_id? && truthyStr tx_data_hex?) then .missingFields
  else
    let bounty_id := bounty_id?.getD ""
    match lookupKey st.bountyData bounty_id with
    | none => .notFound
    | some _bountyInfo =>
      let _reasonLog := reason.getD "none provided"
      match lookupKey st.activeWallets bounty_id with
      | none => .walletNotInMemory
      | some wallet =>
        describeAndSignPayout eng wallet bounty_id (tx_data_hex?.getD "")

/-- Responses of `GET /bounty/:id`. -/
inductive GetBountyResp where
  | pending (bounty_id : String)
  | notFound
  | ok (bounty_id : String) (deadline_block : Int) (multisig_address : String)
       (is_ready : Bool) (created_at : String) (wallet_in_memory : Bool)
deriving DecidableEq

/-- `GET /bounty/:id`: project the bounty record; the seed field
`wallet_mnemonic` is not part of the projection. -/
def get_bounty (st : GuardianState) (id : String) : GetBountyResp :=
  match lookupKey st.bountyData id with
  | none =>
      if hasKey st.pendingEscrows id then .pending id else .notFound
  | some info =>
      .ok info.bounty_id info.deadline_block info.multisig_address
        info.is_ready info.created_at (hasKey st.activeWallets id)

/-- One element of the `GET /bounties` list. -/
structure BountySummary where
  bounty_id : String
  deadline_block : Int
  multisig_address : String
  is_ready : Bool
  created_at : String
deriving DecidableEq

/-- Response of `GET /bounties`. -/
structure ListResp where
  pending : Nat
  completed : Nat
  bounties : List BountySummary
deriving DecidableEq

/-- `GET /bounties`: summaries of all finalized bounties (again without
the seed field). -/
def list_bounties (st : GuardianState) : ListResp :=
  let bounties := st.bountyData.map (fun p =>
    BountySummary.mk p.1 p.2.deadline_block p.2.multisig_address
      p.2.is_ready p.2.created_at)
  { pending := st.pendingEscrows.length,
    completed := bounties.length,
    bounties := bounties }

/-- One external operation applied to the server state, for reachability
arguments.  Engines and request bodies are arbitrary per call. -/
inductive Op where
  | init (eng : Engine) (bounty_id? : Option String) (now : Nat)
  | finalize (eng : Engine) (req : FinalizeReq) (now : String)
  | sweep (now : Nat)
  | sync (eng : Engine) (bounty_id? : Option String) (other? : Option (List String))
  | refund (eng : Engine) (req : RefundReq)
  | payout (eng : Engine) (bounty_id? tx_data_hex? reason : Option String)
  | getRecord (id : String)
  | listRecords
  | healthCheck

/-- State effect of one operation (`sync`, `refund`, `payout` and the GET
endpoints never mutate the maps). -/
def applyOp (st : GuardianState) : Op → GuardianState
  | .init eng bid now => (init_escrow eng st bid now).2
  | .finalize eng req now => (finalize_escrow eng st req now).2
  | .sweep now => cleanupSweep st now
  | .sync _ _ _ => st
  | .refund _ _ => st
  | .payout _ _ _ _ => st
  | .getRecord _ => st
  | .listRecords => st
  | .healthCheck => st

/-- State after a sequence of operations. -/
def applyOps (st : GuardianState) (ops : List Op) : GuardianState :=
  ops.foldl applyOp st

/-- A bounty id is in at most one of the pending table and the registry. -/
def atMostOne (st : GuardianState) : Prop :=
  ∀ id, ¬(hasKey st.pendingEscrows id = true ∧ hasKey st.bountyData id = true)

/-- A bounty id is in exactly one of the pending table and the registry. -/
def presentExactlyOne (st : GuardianState) (id : String) : Prop :=
  (hasKey st.pendingEscrows id = true ∧ hasKey st.bountyData id = false) ∨
  (hasKey st.pendingEscrows id = false ∧ hasKey st.bountyData id = true)

/-- The operations that remove `id` from the pending table without moving
it to the registry: a sweep that evicts a stale session for `id`, or an
`init_escrow` replacement for `id` whose round-1 engine call fails (the
old session is deleted and no new one is stored). -/
def removesPending (st : GuardianState) (op : Op) (id : String) : Prop :=
  (∃ now e, op = Op.sweep now ∧ lookupKey st.pendingEscrows id = some e ∧
    now - e.created_at > TTL_MS) ∨
  (∃ eng now, op = Op.init eng (some id) now ∧
    (eng.prepare_multisig st.nextWallet).success = false)

/-- Replace the recovery seed of one bounty record by `f` of it (and
nothing else). -/
def seedUpd (f : String → String) (b : BountyInfo) : BountyInfo :=
  { b with wallet_mnemonic := f b.wallet_mnemonic }

/-- `seedUpd` on the value of one registry entry. -/
def seedMapEntry (f : String → String) (p : String × BountyInfo) :
    String × BountyInfo :=
  (p.1, seedUpd f p.2)

/-- Replace every stored recovery seed by `f` of it (and nothing else);
used to state that no response depends on the seeds. -/
def mapSeeds (f : String → String) (st : GuardianState) : GuardianState :=
  { st with bountyData := st.bountyData.map (seedMapEntry f) }

/-- Replace the engine's seed-export result by `f` of it (and nothing
else). -/
def mapEngineSeed (f : String → String) (eng : Engine) : Engine :=
  { eng with get_seed := fun w pw => f (eng.get_seed w pw) }

/-- A deterministic engine used for concrete witnesses: every call
succeeds, import fails (to exercise the non-fatal import path). -/
def testEngine : Engine :=
  { prepare_multisig := fun w => ⟨true, "prep-" ++ toString w, ""⟩,
    make_multisig := fun _ _ _ _ => ⟨true, "round2-own", ""⟩,
    exchange_multisig_keys := fun _ _ _ => ⟨true, "addr-final", true, ""⟩,
    get_seed := fun _ _ => "seed words here",
    export_multisig_info := fun _ => ⟨true, "export-own", ""⟩,
    import_multisig_info := fun _ _ => ⟨false, 0, "import failed"⟩,
    has_describe := true,
    describe_multisig_tx_hex := fun _ _ => "described",
    has_sign := true,
    sign_multisig_tx_hex := fun _ tx => ⟨true, tx ++ "+sig", "guardian", true, ""⟩ }

/-- An engine whose round-1 call always fails. -/
def failPrepEngine : Engine :=
  { testEngine with prepare_multisig := fun _ => ⟨false, "", "prep failed"⟩ }

/-- An engine whose round-2 (`make_multisig`) call always fails. -/
def failMakeEngine : Engine :=
  { testEngine with make_multisig := fun _ _ _ _ => ⟨false, "", "make failed"⟩ }

/-- An engine whose key-exchange call always fails. -/
def failKexEngine : Engine :=
  { testEngine with exchange_multisig_keys := fun _ _ _ => ⟨false, "", false, "kex failed"⟩ }

/-- The freshly started server state (after `loadWasm`/`loadBountyState`
with an empty data directory). -/
def initialState : GuardianState :=
  { isInitialized := true, pendingEscrows := [], bountyData := [],
    activeWallets := [], nextWallet := 0, released := [] }

/-- A concrete finalized bounty record for witnesses. -/
def sampleBounty : BountyInfo :=
  { bounty_id := "b1", deadline_block := 1000000,
    multisig_address := "addr-final", is_ready := true,
    created_at := "2026-01-01T00:00:00Z", wallet_mnemonic := "seed words here" }

/-- A concrete state holding one finalized bounty with a resident
wallet. -/
def finalizedState : GuardianState :=
  { isInitialized := true, pendingEscrows := [],
    bountyData := [("b1", sampleBounty)],
    activeWallets := [("b1", 0)], nextWallet := 1, released := [] }

/-- A concrete state holding one pending escrow created at t = 0 ms. -/
def pendingState : GuardianState :=
  { isInitialized := true,
    pendingEscrows := [("b1", ⟨0, "prep-0", 0⟩)],
    bountyData := [], activeWallets := [], nextWallet := 1, released := [] }

/-- A concrete finalize request with every field present and truthy. -/
def sampleFinalizeReq : FinalizeReq :=
  { bounty_id := some "b1", deadline_block := some 1000000,
    server_round1 := some "s1", server_round2 := some "s2",
    worker_round1 := some "w1", worker_round2 := some "w2" }

section AListLemmas

variable {α : Type}

theorem lookupKey_setKey_self (l : List (String × α)) (k : String) (v : α) :
    lookupKey (setKey l k v) k = some v := by
  induction l with
  | nil => simp [setKey, lookupKey]
  | cons hd tl ih =>
    by_cases h : hd.1 = k
    · simp [setKey, h, lookupKey]
    · simpa [setKey, h, lookupKey] using ih

theorem lookupKey_setKey_ne (l : List (String × α)) (k k' : String) (v : α)
    (h : k' ≠ k) : lookupKey (setKey l k v) k' = lookupKey l k' := by
  have h1 : ¬(k = k') := fun hh => h hh.symm
  induction l with
  | nil => simp [setKey, lookupKey, h1]
  | cons hd tl ih =>
    by_cases hk : hd.1 = k
    · have h2 : ¬(hd.1 = k') := by rw [hk]; exact h1
      simp [setKey, hk, lookupKey, h1, h2]
    · by_cases hk' : hd.1 = k'
      · simp [setKey, hk, lookupKey, hk', h]
      · simp [setKey, hk, lookupKey, hk', ih]

theorem lookupKey_eraseKey_self (l : List (String × α)) (k : String) :
    lookupKey (eraseKey l k) k = none := by
  induction l with
  | nil => simp [eraseKey, lookupKey]
  | cons hd tl ih =>
    by_cases h : hd.1 = k
    · simpa [eraseKey, h, lookupKey] using ih
    · simpa [eraseKey, h, lookupKey] using ih

theorem lookupKey_eraseKey_ne (l : List (String × α)) (k k' : String)
    (h : k' ≠ k) : lookupKey (eraseKey l k) k' = lookupKey l k' := by
  have h1 : ¬(k = k') := fun hh => h hh.symm
  induction l with
  | nil => simp [eraseKey, lookupKey]
  | cons hd tl ih =>
    by_cases hk : hd.1 = k
    · have hk' : hd.1 ≠ k' := by rw [hk]; exact h1
      simp only [eraseKey, decide_not] at ih
      simp [eraseKey, List.filter_cons, hk, lookupKey, hk', h1, ih]
    · by_cases hk' : hd.1 = k'
      · simp [eraseKey, List.filter_cons, hk, lookupKey, hk', h]
      · simp only [eraseKey, decide_not] at ih
        simp [eraseKey, List.filter_cons, hk, lookupKey, hk', ih]

theorem lookupKey_filter_pos (l : List (String × α)) (p : String × α → Bool)
    (k : String) (v : α) (hl : lookupKey l k = some v) (hp : p (k, v) = true) :
    lookupKey (l.filter p) k = some v := by
  induction l with
  | nil => simp [lookupKey] at hl
  | cons hd tl ih =>
    by_cases hk : hd.1 = k
    · have hv : hd.2 = v := by
        have := hl
        simpa [lookupKey, hk] using this
      have hhd : hd = (k, v) := by
        cases hd; simp_all
      subst hhd
      simp [List.filter, hp, lookupKey]
    · have hl' : lookupKey tl k = some v := by
        simpa [lookupKey, hk] using hl
      by_cases hph : p hd = true
      · simp [List.filter, hph, lookupKey, hk, ih hl']
      · simp only [Bool.not_eq_true] at hph
        simp [List.filter, hph, ih hl']

theorem lookupKey_filter_none_of_none (l : List (String × α))
    (p : String × α → Bool) (k : String) (hl : lookupKey l k = none) :
    lookupKey (l.filter p) k = none := by
  induction l with
  | nil => simp [lookupKey]
  | cons hd tl ih =>
    by_cases hk : hd.1 = k
    · simp [lookupKey, hk] at hl
    · have hl' : lookupKey tl k = none := by simpa [lookupKey, hk] using hl
      by_cases hph : p hd = true
      · simp [List.filter, hph, lookupKey, hk, ih hl']
      · simp only [Bool.not_eq_true] at hph
        simp [List.filter, hph, ih hl']

theorem lookupKey_filter_none_of_all (l : List (String × α))
    (p : String × α → Bool) (k : String)
    (hall : ∀ w, (k, w) ∈ l → p (k, w) = false) :
    lookupKey (l.filter p) k = none := by
  induction l with
  | nil => simp [lookupKey]
  | cons hd tl ih =>
    have ih' := ih (fun w hw => hall w (List.mem_cons_of_mem hd hw))
    by_cases hk : hd.1 = k
    · have hhd : hd = (k, hd.2) := by cases hd; simp_all
      have hpf : p hd = false := by
        rw [hhd]; exact hall hd.2 (hhd ▸ List.mem_cons_self hd tl)
      simp [List.filter, hpf, ih']
    · by_cases hph : p hd = true
      · simp [List.filter, hph, lookupKey, hk, ih']
      · simp only [Bool.not_eq_true] at hph
        simp [List.filter, hph, ih']

theorem mem_of_lookupKey (l : List (String × α)) (k : String) (v : α)
    (h : lookupKey l k = some v) : (k, v) ∈ l := by
  induction l with
  | nil => simp [lookupKey] at h
  | cons hd tl ih =>
    by_cases hk : hd.1 = k
    · have hhd : hd = (k, v) := by
        have hv : hd.2 = v := by simpa [lookupKey, hk] using h
        cases hd; simp_all
      subst hhd
      exact List.mem_cons_self _ _
    · have h' : lookupKey tl k = some v := by simpa [lookupKey, hk] using h
      exact List.mem_cons_of_mem hd (ih h')

theorem eq_of_mem_of_lookupKey_nodup (l : List (String × α)) (k : String)
    (v w : α) (hnd : (l.map Prod.fst).Nodup)
    (hl : lookupKey l k = some v) (hm : (k, w) ∈ l) : w = v := by
  induction l with
  | nil => simp at hm
  | cons hd tl ih =>
    have hnd' : (tl.map Prod.fst).Nodup := (List.nodup_cons.mp hnd).2
    have hknot : hd.1 ∉ tl.map Prod.fst := (List.nodup_cons.mp hnd).1
    by_cases hk : hd.1 = k
    · have hv : hd.2 = v := by simpa [lookupKey, hk] using hl
      rcases List.mem_cons.mp hm with hh | hh
      · cases hd; simp_all
      · exfalso
        exact hknot (hk ▸ (List.mem_map.mpr ⟨(k, w), hh, rfl⟩))
    · have hl' : lookupKey tl k = some v := by simpa [lookupKey, hk] using hl
      rcases List.mem_cons.mp hm with hh | hh
      · exfalso; exact hk (by rw [← hh])
      · exact ih hnd' hl' hh

theorem lookupKey_map_snd (l : List (String × α)) (f : α → β) (k : String) :
    lookupKey (l.map (fun p => (p.1, f p.2))) k = (lookupKey l k).map f := by
  induction l with
  | nil => simp [lookupKey]
  | cons hd tl ih =>
    by_cases hk : hd.1 = k
    · simp [lookupKey, hk]
    · simp [lookupKey, hk, ih]

theorem hasKey_map_snd (l : List (String × α)) (f : α → β) (k : String) :
    hasKey (l.map (fun p => (p.1, f p.2))) k = hasKey l k := by
  simp only [hasKey, lookupKey_map_snd]
  cases lookupKey l k <;> rfl

end AListLemmas

theorem hasKey_eraseKey_imp {α : Type} (l : List (String × α)) (k k' : String)
    (h : hasKey (eraseKey l k) k' = true) : hasKey l k' = true := by
  by_cases hk : k' = k
  · subst hk
    rw [hasKey, lookupKey_eraseKey_self] at h
    simp at h
  · rwa [hasKey, lookupKey_eraseKey_ne l k k' hk] at h

theorem hasKey_filter_imp {α : Type} (l : List (String × α)) (p : String × α → Bool)
    (k : String) (h : hasKey (l.filter p) k = true) : hasKey l k = true := by
  rw [hasKey] at h ⊢
  cases hl : lookupKey l k with
  | none => rw [lookupKey_filter_none_of_none l p k hl] at h; simp at h
  | some v => rfl

theorem hasKey_setKey_imp {α : Type} (l : List (String × α)) (k k' : String) (v : α)
    (h : hasKey (setKey l k v) k' = true) : k' = k ∨ hasKey l k' = true := by
  by_cases hk : k' = k
  · exact Or.inl hk
  · rw [hasKey, lookupKey_setKey_ne l k k' v hk] at h
    exact Or.inr h

theorem hasKey_setKey_self {α : Type} (l : List (String × α)) (k : String) (v : α) :
    hasKey (setKey l k v) k = true := by
  rw [hasKey, lookupKey_setKey_self]; rfl

theorem hasKey_eraseKey_self {α : Type} (l : List (String × α)) (k : String) :
    hasKey (eraseKey l k) k = false := by
  rw [hasKey, lookupKey_eraseKey_self]; rfl

/-- C1: on a finalized bounty record, a `sign_refund` request with
`current_block < deadline_block` fails with DeadlineNotReached (HTTP 403)
reporting `blocks_remaining = deadline_block - current_block` exactly;
with `current_block ≥ deadline_block` and a resident wallet the call
proceeds to the engine describe-and-sign step. -/
theorem sign_refund_deadline_gate (eng : Engine) (st : GuardianState)
    (req : RefundReq) (info : BountyInfo) (cb : Int) (id : String) (w : Nat)
    (hinit : st.isInitialized = true)
    (hid : req.bounty_id = some id) (hidne : id ≠ "")
    (hcb : req.current_block = some cb)
    (htx : truthyStr req.tx_data_hex = true)
    (hrec : lookupKey st.bountyData id = some info) :
    (cb < info.deadline_block →
      sign_refund eng st req =
        SignResp.deadlineNotReached cb info.deadline_block
          (info.deadline_block - cb) ∧
      (sign_refund eng st req).httpStatus = 403) ∧
    (info.deadline_block ≤ cb → lookupKey st.activeWallets id = some w →
      sign_refund eng st req =
        describeAndSignRefund eng w id (req.tx_data_hex.getD "")) := by
  have hbid : truthyStr (some id) = true := by simp [truthyStr, hidne]
  constructor
  · intro hlt
    have hresp : sign_refund eng st req =
        SignResp.deadlineNotReached cb info.deadline_block
          (info.deadline_block - cb) := by
      simp [sign_refund, hinit, hcb, htx, hid, hrec, hlt, hbid]
    exact ⟨hresp, by rw [hresp]; rfl⟩
  · intro hge hw
    simp [sign_refund, hinit, hcb, htx, hid, hrec, hw, not_lt.mpr hge, hbid]

/-- Witness for C1 at a concrete finalized bounty: below the deadline the
gate reports 999900 remaining blocks, at the deadline the engine sign
step runs. -/
theorem sign_refund_deadline_gate_witness :
    sign_refund testEngine finalizedState ⟨some "b1", some 100, some "tx"⟩ =
      SignResp.deadlineNotReached 100 1000000 999900 ∧
    sign_refund testEngine finalizedState ⟨some "b1", some 1000000, some "tx"⟩ =
      SignResp.ok "b1" "tx+sig" "guardian" true := by
  constructor
  · have h := (sign_refund_deadline_gate testEngine finalizedState
      ⟨some "b1", some 100, some "tx"⟩ sampleBounty 100 "b1" 0
      rfl rfl (by decide) rfl (by decide) rfl).1 (by decide)
    exact h.1
  · have h := (sign_refund_deadline_gate testEngine finalizedState
      ⟨some "b1", some 1000000, some "tx"⟩ sampleBounty 1000000 "b1" 0
      rfl rfl (by decide) rfl (by decide) rfl).2 (by decide) rfl
    rw [h]; rfl

/-- C9: `sync_outputs` on a finalized bounty with a resident wallet whose
export succeeds returns success with the own export payload, whatever the
supplied counterpart info and whatever the engine's import does (its
result is only logged). -/
theorem sync_outputs_import_nonfatal (eng : Engine) (st : GuardianState)
    (id : String) (other? : Option (List String)) (w : Nat)
    (hinit : st.isInitialized = true) (hidne : id ≠ "")
    (hrec : hasKey st.bountyData id = true)
    (hw : lookupKey st.activeWallets id = some w)
    (hexp : (eng.export_multisig_info w).success = true) :
    sync_outputs eng st (some id) other? =
      SyncResp.ok id (eng.export_multisig_info w).info := by
  simp [sync_outputs, hinit, truthyStr, hidne, hrec, hw, hexp]

/-- Witness for C9: with an engine whose import always fails, the call
still returns the own export payload. -/
theorem sync_outputs_import_nonfatal_witness :
    sync_outputs testEngine finalizedState (some "b1") (some ["other-info"]) =
      SyncResp.ok "b1" "export-own" := by
  have h := sync_outputs_import_nonfatal testEngine finalizedState "b1"
    (some ["other-info"]) 0 rfl (by decide) rfl rfl rfl
  rw [h]; rfl

/-- C10: required-field validation of `finalize_escrow` tests JS
truthiness, so `deadline_block = 0` (a valid block height) or any
empty-string round payload yields the 400 missing-fields response even
when every field is present. -/
theorem finalize_truthiness_validation (eng : Engine) (st : GuardianState)
    (req : FinalizeReq) (now : String)
    (hinit : st.isInitialized = true) :
    (req.deadline_block = some 0 →
      finalize_escrow eng st req now = (FinalizeResp.missingFields, st) ∧
      (finalize_escrow eng st req now).1.httpStatus = 400) ∧
    (req.server_round1 = some "" →
      finalize_escrow eng st req now = (FinalizeResp.missingFields, st)) ∧
    (req.server_round2 = some "" →
      finalize_escrow eng st req now = (FinalizeResp.missingFields, st)) ∧
    (req.worker_round1 = some "" →
      finalize_escrow eng st req now = (FinalizeResp.missingFields, st)) ∧
    (req.worker_round2 = some "" →
      finalize_escrow eng st req now = (FinalizeResp.missingFields, st)) := by
  refine ⟨fun h => ?_, fun h => ?_, fun h => ?_, fun h => ?_, fun h => ?_⟩ <;>
    first
      | (refine ⟨?_, ?_⟩ <;>
          simp [finalize_escrow, hinit, h, truthyInt, truthyStr,
            FinalizeResp.httpStatus])
      | simp [finalize_escrow, hinit, h, truthyInt, truthyStr]

/-- Witness for C10: a finalize request with `deadline_block = 0` and all
other fields non-empty is rejected as missing fields, as is one with an
empty `server_round1`. -/
theorem finalize_truthiness_validation_witness :
    finalize_escrow testEngine pendingState
      { sampleFinalizeReq with deadline_block := some 0 } "t" =
      (FinalizeResp.missingFields, pendingState) ∧
    finalize_escrow testEngine pendingState
      { sampleFinalizeReq with server_round1 := some "" } "t" =
      (FinalizeResp.missingFields, pendingState) := by
  constructor
  · exact ((finalize_truthiness_validation testEngine pendingState
      { sampleFinalizeReq with deadline_block := some 0 } "t" rfl).1 rfl).1
  · exact (finalize_truthiness_validation testEngine pendingState
      { sampleFinalizeReq with server_round1 := some "" } "t" rfl).2.1 rfl

/-- C2: a successful finalize feeds `make_multisig` the round-1 payloads
in the fixed order [own, server, worker], feeds `exchange_multisig_keys`
the round-2 payloads in the fixed order [own, server, worker], and
returns the stored own round-1 payload, the computed own round-2
payload, the key-exchange address, and its readiness flag. -/
theorem finalize_round_ordering (eng : Engine) (st : GuardianState)
    (req : FinalizeReq) (now : String) (id : String) (p : PendingEscrow)
    (s1 s2 w1 w2 : String) (d : Int)
    (hinit : st.isInitialized = true)
    (hid : req.bounty_id = some id) (hidne : id ≠ "")
    (hd : req.deadline_block = some d) (hdne : d ≠ 0)
    (hs1 : req.server_round1 = some s1) (hs1ne : s1 ≠ "")
    (hs2 : req.server_round2 = some s2) (hs2ne : s2 ≠ "")
    (hw1 : req.worker_round1 = some w1) (hw1ne : w1 ≠ "")
    (hw2 : req.worker_round2 = some w2) (hw2ne : w2 ≠ "")
    (hpend : lookupKey st.pendingEscrows id = some p)
    (hmk : (eng.make_multisig p.wallet "" 2 [p.guardian_round1, s1, w1]).success = true)
    (hkx : (eng.exchange_multisig_keys p.wallet ""
        [(eng.make_multisig p.wallet "" 2 [p.guardian_round1, s1, w1]).multisig_info,
         s2, w2]).success = true) :
    (finalize_escrow eng st req now).1 =
      FinalizeResp.ok id p.guardian_round1
        (eng.make_multisig p.wallet "" 2 [p.guardian_round1, s1, w1]).multisig_info
        (eng.exchange_multisig_keys p.wallet ""
          [(eng.make_multisig p.wallet "" 2 [p.guardian_round1, s1, w1]).multisig_info,
           s2, w2]).address
        (eng.exchange_multisig_keys p.wallet ""
          [(eng.make_multisig p.wallet "" 2 [p.guardian_round1, s1, w1]).multisig_info,
           s2, w2]).is_ready := by
  have hbid : truthyStr (some id) = true := by simp [truthyStr, hidne]
  have hbd : truthyInt (some d) = true := by simp [truthyInt, hdne]
  have hb1 : truthyStr (some s1) = true := by simp [truthyStr, hs1ne]
  have hb2 : truthyStr (some s2) = true := by simp [truthyStr, hs2ne]
  have hb3 : truthyStr (some w1) = true := by simp [truthyStr, hw1ne]
  have hb4 : truthyStr (some w2) = true := by simp [truthyStr, hw2ne]
  simp [finalize_escrow, hinit, hid, hd, hs1, hs2, hw1, hw2, hbid, hbd,
    hb1, hb2, hb3, hb4, hpend, hmk, hkx]

/-- Witness for C2: a concrete finalize through the always-succeeding
test engine returns the stored round 1, the computed round 2, the final
address and the readiness flag. -/
theorem finalize_round_ordering_witness :
    (finalize_escrow testEngine pendingState sampleFinalizeReq "t").1 =
      FinalizeResp.ok "b1" "prep-0" "round2-own" "addr-final" true := by
  have h := finalize_round_ordering testEngine pendingState sampleFinalizeReq
    "t" "b1" ⟨0, "prep-0", 0⟩ "s1" "s2" "w1" "w2" 1000000
    rfl rfl (by decide) rfl (by decide) rfl (by decide) rfl (by decide)
    rfl (by decide) rfl (by decide) rfl rfl rfl
  rw [h]; rfl

/-- C3: finalize on an id with no pending session yields NotFound (404);
on an existing session, a round-2 (`make_multisig`) or key-exchange
failure yields CryptoEngineFailure (500) carrying the underlying engine
reason and leaves the whole state — in particular the pending session
entry — unchanged, so finalize can be retried without re-running init. -/
theorem finalize_notfound_and_failure_keeps_session (eng : Engine)
    (st : GuardianState) (req : FinalizeReq) (now : String) (id : String)
    (hinit : st.isInitialized = true)
    (hid : req.bounty_id = some id) (hidne : id ≠ "")
    (hval : truthyInt req.deadline_block = true)
    (hv1 : truthyStr req.server_round1 = true)
    (hv2 : truthyStr req.server_round2 = true)
    (hv3 : truthyStr req.worker_round1 = true)
    (hv4 : truthyStr req.worker_round2 = true) :
    (lookupKey st.pendingEscrows id = none →
      finalize_escrow eng st req now = (FinalizeResp.pendingNotFound, st) ∧
      (finalize_escrow eng st req now).1.httpStatus = 404) ∧
    (∀ p, lookupKey st.pendingEscrows id = some p →
      ((eng.make_multisig p.wallet "" 2
          [p.guardian_round1, req.server_round1.getD "", req.worker_round1.getD ""]).success = false →
        finalize_escrow eng st req now =
          (FinalizeResp.engineFailure ("Failed to make multisig: " ++
            (eng.make_multisig p.wallet "" 2
              [p.guardian_round1, req.server_round1.getD "",
               req.worker_round1.getD ""]).error), st) ∧
        (finalize_escrow eng st req now).1.httpStatus = 500 ∧
        lookupKey (finalize_escrow eng st req now).2.pendingEscrows id = some p) ∧
      ((eng.make_multisig p.wallet "" 2
          [p.guardian_round1, req.server_round1.getD "", req.worker_round1.getD ""]).success = true →
        (eng.exchange_multisig_keys p.wallet ""
          [(eng.make_multisig p.wallet "" 2
              [p.guardian_round1, req.server_round1.getD "", req.worker_round1.getD ""]).multisig_info,
           req.server_round2.getD "", req.worker_round2.getD ""]).success = false →
        finalize_escrow eng st req now =
          (FinalizeResp.engineFailure ("Failed to exchange keys: " ++
            (eng.exchange_multisig_keys p.wallet ""
              [(eng.make_multisig p.wallet "" 2
                  [p.guardian_round1, req.server_round1.getD "", req.worker_round1.getD ""]).multisig_info,
               req.server_round2.getD "", req.worker_round2.getD ""]).error), st) ∧
        (finalize_escrow eng st req now).1.httpStatus = 500 ∧
        lookupKey (finalize_escrow eng st req now).2.pendingEscrows id = some p)) := by
  have hbid : truthyStr (some id) = true := by simp [truthyStr, hidne]
  refine ⟨fun hnone => ?_, fun p hp => ⟨fun hmk => ?_, fun hmk hkx => ?_⟩⟩
  · have hresp : finalize_escrow eng st req now = (FinalizeResp.pendingNotFound, st) := by
      simp [finalize_escrow, hinit, hid, hbid, hval, hv1, hv2, hv3, hv4, hnone]
    exact ⟨hresp, by rw [hresp]; rfl⟩
  · have hresp : finalize_escrow eng st req now =
        (FinalizeResp.engineFailure ("Failed to make multisig: " ++
          (eng.make_multisig p.wallet "" 2
            [p.guardian_round1, req.server_round1.getD "",
             req.worker_round1.getD ""]).error), st) := by
      simp [finalize_escrow, hinit, hid, hbid, hval, hv1, hv2, hv3, hv4, hp, hmk]
    exact ⟨hresp, by rw [hresp]; rfl, by rw [hresp]; exact hp⟩
  · have hresp : finalize_escrow eng st req now =
        (FinalizeResp.engineFailure ("Failed to exchange keys: " ++
          (eng.exchange_multisig_keys p.wallet ""
            [(eng.make_multisig p.wallet "" 2
                [p.guardian_round1, req.server_round1.getD "", req.worker_round1.getD ""]).multisig_info,
             req.server_round2.getD "", req.worker_round2.getD ""]).error), st) := by
      simp [finalize_escrow, hinit, hid, hbid, hval, hv1, hv2, hv3, hv4, hp, hmk, hkx]
    exact ⟨hresp, by rw [hresp]; rfl, by rw [hresp]; exact hp⟩

/-- Witness for C3: finalize before any init is NotFound on the fresh
state; with a failing `make_multisig` engine the pending session of the
concrete pending state survives the 500 failure. -/
theorem finalize_notfound_and_failure_keeps_session_witness :
    finalize_escrow testEngine initialState sampleFinalizeReq "t" =
      (FinalizeResp.pendingNotFound, initialState) ∧
    finalize_escrow failMakeEngine pendingState sampleFinalizeReq "t" =
      (FinalizeResp.engineFailure "Failed to make multisig: make failed",
       pendingState) := by
  constructor
  · exact ((finalize_notfound_and_failure_keeps_session testEngine initialState
      sampleFinalizeReq "t" "b1" rfl rfl (by decide) (by decide) (by decide)
      (by decide) (by decide) (by decide)).1 rfl).1
  · have h := (((finalize_notfound_and_failure_keeps_session failMakeEngine
      pendingState sampleFinalizeReq "t" "b1" rfl rfl (by decide) (by decide)
      (by decide) (by decide) (by decide) (by decide)).2
      ⟨0, "prep-0", 0⟩ rfl).1 rfl).1
    exact h

/-- Counterexample to C4: on a state whose Pending Session Table holds
"b1" (and whose registry does not), `init_escrow` for "b1" does not fail
with Conflict — it succeeds and stores a fresh pending session for the
replacement wallet. -/
theorem init_on_pending_id_not_conflict :
    (init_escrow testEngine pendingState (some "b1") 1000).1 =
      InitResp.ok "b1" "prep-1" ∧
    (init_escrow testEngine pendingState (some "b1") 1000).1 ≠
      InitResp.conflict ∧
    lookupKey (init_escrow testEngine pendingState
      (some "b1") 1000).2.pendingEscrows "b1" =
      some ⟨1, "prep-1", 1000⟩ := by
  refine ⟨rfl, ?_, rfl⟩
  intro h
  simp [init_escrow, pendingState, testEngine, hasKey, lookupKey,
    truthyStr, eraseKey, setKey] at h

/-- C4 (amended): for every escrow id already present in the Bounty
Registry, `init_escrow` fails with Conflict (409) and changes nothing;
an id present only in the Pending Session Table is not rejected. -/
theorem init_conflict_when_finalized (eng : Engine) (st : GuardianState)
    (id : String) (now : Nat)
    (hinit : st.isInitialized = true) (hidne : id ≠ "")
    (hfin : hasKey st.bountyData id = true) :
    init_escrow eng st (some id) now = (InitResp.conflict, st) ∧
    (init_escrow eng st (some id) now).1.httpStatus = 409 := by
  have hbid : truthyStr (some id) = true := by simp [truthyStr, hidne]
  have hresp : init_escrow eng st (some id) now = (InitResp.conflict, st) := by
    simp [init_escrow, hinit, hbid, hfin]
  exact ⟨hresp, by rw [hresp]; rfl⟩

/-- Witness for the amended C4 at a state with "b1" finalized. -/
theorem init_conflict_when_finalized_witness :
    init_escrow testEngine finalizedState (some "b1") 5 =
      (InitResp.conflict, finalizedState) :=
  (init_conflict_when_finalized testEngine finalizedState "b1" 5
    rfl (by decide) rfl).1

/-- C5: a second `init_escrow` for an id with a live pending session (and
no finalized record) succeeds with a fresh round-1 payload: the new
session (new wallet, new payload, new timestamp) replaces the old table
entry and the old wallet handle is released exactly once; an id already
finalized instead yields Conflict (409). -/
theorem init_twice_replaces (eng : Engine) (st : GuardianState)
    (id : String) (now : Nat) (e : PendingEscrow)
    (hinit : st.isInitialized = true) (hidne : id ≠ "")
    (hnofin : hasKey st.bountyData id = false)
    (hpend : lookupKey st.pendingEscrows id = some e)
    (hprep : (eng.prepare_multisig st.nextWallet).success = true) :
    (init_escrow eng st (some id) now).1 =
      InitResp.ok id (eng.prepare_multisig st.nextWallet).multisig_info ∧
    lookupKey (init_escrow eng st (some id) now).2.pendingEscrows id =
      some ⟨st.nextWallet,
        (eng.prepare_multisig st.nextWallet).multisig_info, now⟩ ∧
    (init_escrow eng st (some id) now).2.released.count e.wallet =
      st.released.count e.wallet + 1 ∧
    (∀ st2, st2.isInitialized = true → hasKey st2.bountyData id = true →
      (init_escrow eng st2 (some id) now).1 = InitResp.conflict) := by
  have hbid : truthyStr (some id) = true := by simp [truthyStr, hidne]
  refine ⟨?_, ?_, ?_, fun st2 h1 h2 => ?_⟩
  · simp [init_escrow, hinit, hbid, hnofin, hpend, hprep]
  · simp [init_escrow, hinit, hbid, hnofin, hpend, hprep,
      lookupKey_setKey_self]
  · simp [init_escrow, hinit, hbid, hnofin, hpend, hprep, List.count_append]
  · simp [init_escrow, h1, hbid, h2]

/-- Witness for C5: init "b1" twice from the fresh state; the second call
returns the round-1 payload of the replacement wallet 1 and the original
wallet 0 is on the released list once. -/
theorem init_twice_replaces_witness :
    (init_escrow testEngine
      (init_escrow testEngine initialState (some "b1") 0).2 (some "b1") 1).1 =
      InitResp.ok "b1" "prep-1" ∧
    (init_escrow testEngine
      (init_escrow testEngine initialState (some "b1") 0).2
        (some "b1") 1).2.released.count 0 = 1 := by
  have h := init_twice_replaces testEngine
    (init_escrow testEngine initialState (some "b1") 0).2 "b1" 1
    ⟨0, "prep-0", 0⟩ rfl (by decide) rfl rfl rfl
  refine ⟨by rw [h.1]; rfl, by have h2 := h.2.2.1; simpa using h2⟩

/-- C7: the sweeper runs on a fixed 1-minute period with a fixed 5-minute
TTL; one run removes every pending session whose age exceeds the TTL and
releases its wallet exactly once (given distinct wallet handles, as
allocation guarantees), and leaves every session aged at most the TTL
untouched. -/
theorem cleanup_sweep_spec (st : GuardianState) (now : Nat) :
    SWEEP_PERIOD_MS = 60 * 1000 ∧
    TTL_MS = 5 * 60 * 1000 ∧
    ∀ id e, lookupKey st.pendingEscrows id = some e →
      ((TTL_MS < now - e.created_at →
        (st.pendingEscrows.map Prod.fst).Nodup →
        lookupKey (cleanupSweep st now).pendingEscrows id = none) ∧
       (TTL_MS < now - e.created_at →
        (st.pendingEscrows.map (fun p => p.2.wallet)).Nodup →
        (cleanupSweep st now).released.count e.wallet =
          st.released.count e.wallet + 1) ∧
       (now - e.created_at ≤ TTL_MS →
        lookupKey (cleanupSweep st now).pendingEscrows id = some e)) := by
  refine ⟨rfl, rfl, fun id e he =>
    ⟨fun hstale hknd => ?_, fun hstale hwnd => ?_, fun hfresh => ?_⟩⟩
  · simp only [cleanupSweep]
    apply lookupKey_filter_none_of_all
    intro w hw
    have hwe : w = e :=
      eq_of_mem_of_lookupKey_nodup st.pendingEscrows id e w hknd he hw
    subst hwe
    simp [hstale]
  · simp only [cleanupSweep, List.count_append]
    have hmem : (id, e) ∈ st.pendingEscrows := mem_of_lookupKey _ _ _ he
    have hmemf : (id, e) ∈ st.pendingEscrows.filter
        (fun p => decide (now - p.2.created_at > TTL_MS)) := by
      simp [List.mem_filter, hmem, hstale]
    have hge : 0 < ((st.pendingEscrows.filter
        (fun p => decide (now - p.2.created_at > TTL_MS))).map
          (fun p => p.2.wallet)).count e.wallet :=
      List.count_pos_iff.mpr (List.mem_map.mpr ⟨(id, e), hmemf, rfl⟩)
    have hle : ((st.pendingEscrows.filter
        (fun p => decide (now - p.2.created_at > TTL_MS))).map
          (fun p => p.2.wallet)).count e.wallet ≤
        (st.pendingEscrows.map (fun p => p.2.wallet)).count e.wallet :=
      ((List.filter_sublist _).map _).count_le _
    have h1 : (st.pendingEscrows.map (fun p => p.2.wallet)).count e.wallet ≤ 1 :=
      List.nodup_iff_count_le_one.mp hwnd _
    omega
  · simp only [cleanupSweep]
    apply lookupKey_filter_pos _ _ _ _ he
    simp [Nat.not_lt.mpr hfresh]

/-- Witness for C7: the session created at t = 0 is evicted (wallet 0
released once) by a sweep at t = 300001 ms but survives one at
t = 300000 ms. -/
theorem cleanup_sweep_spec_witness :
    lookupKey (cleanupSweep pendingState 300001).pendingEscrows "b1" = none ∧
    (cleanupSweep pendingState 300001).released.count 0 = 1 ∧
    lookupKey (cleanupSweep pendingState 300000).pendingEscrows "b1" =
      some ⟨0, "prep-0", 0⟩ := by
  have h1 := (cleanup_sweep_spec pendingState 300001).2.2 "b1"
    ⟨0, "prep-0", 0⟩ rfl
  have h2 := (cleanup_sweep_spec pendingState 300000).2.2 "b1"
    ⟨0, "prep-0", 0⟩ rfl
  refine ⟨h1.1 (by decide) (by decide), ?_, h2.2.2 (by decide)⟩
  have hc := h1.2.1 (by decide) (by decide)
  simpa using hc

theorem mapSeeds_isInitialized (f : String → String) (st : GuardianState) :
    (mapSeeds f st).isInitialized = st.isInitialized := rfl

theorem mapSeeds_pendingEscrows (f : String → String) (st : GuardianState) :
    (mapSeeds f st).pendingEscrows = st.pendingEscrows := rfl

theorem mapSeeds_activeWallets (f : String → String) (st : GuardianState) :
    (mapSeeds f st).activeWallets = st.activeWallets := rfl

theorem mapSeeds_nextWallet (f : String → String) (st : GuardianState) :
    (mapSeeds f st).nextWallet = st.nextWallet := rfl

theorem mapSeeds_bountyData_length (f : String → String) (st : GuardianState) :
    (mapSeeds f st).bountyData.length = st.bountyData.length := by
  show (st.bountyData.map (seedMapEntry f)).length = st.bountyData.length
  exact List.length_map st.bountyData (seedMapEntry f)

theorem lookupKey_mapSeeds (f : String → String) (st : GuardianState)
    (k : String) :
    lookupKey (mapSeeds f st).bountyData k =
      (lookupKey st.bountyData k).map (seedUpd f) :=
  lookupKey_map_snd st.bountyData (seedUpd f) k

theorem hasKey_mapSeeds (f : String → String) (st : GuardianState)
    (k : String) :
    hasKey (mapSeeds f st).bountyData k = hasKey st.bountyData k := by
  simp only [hasKey, lookupKey_mapSeeds]
  cases lookupKey st.bountyData k <;> rfl

theorem mapEngineSeed_prepare (f : String → String) (eng : Engine) :
    (mapEngineSeed f eng).prepare_multisig = eng.prepare_multisig := rfl

theorem mapEngineSeed_make (f : String → String) (eng : Engine) :
    (mapEngineSeed f eng).make_multisig = eng.make_multisig := rfl

theorem mapEngineSeed_exchange (f : String → String) (eng : Engine) :
    (mapEngineSeed f eng).exchange_multisig_keys =
      eng.exchange_multisig_keys := rfl

theorem health_ignores_seeds (f : String → String) (st : GuardianState) :
    health (mapSeeds f st) = health st := by
  simp [health, mapSeeds_isInitialized, mapSeeds_pendingEscrows,
    mapSeeds_bountyData_length]

theorem init_escrow_ignores_seeds (f : String → String) (eng : Engine)
    (st : GuardianState) (bid : Option String) (now : Nat) :
    (init_escrow eng (mapSeeds f st) bid now).1 =
      (init_escrow eng st bid now).1 := by
  by_cases h1 : st.isInitialized = true
  · by_cases h2 : truthyStr bid = true
    · by_cases h3 : hasKey st.bountyData (bid.getD "") = true
      · simp [init_escrow, mapSeeds_isInitialized, hasKey_mapSeeds, h1, h2, h3]
      · cases hp : lookupKey st.pendingEscrows (bid.getD "") <;>
          by_cases h4 : (eng.prepare_multisig st.nextWallet).success = true <;>
            simp [init_escrow, mapSeeds_isInitialized, mapSeeds_pendingEscrows,
              mapSeeds_nextWallet, hasKey_mapSeeds, h1, h2, h3, hp, h4]
    · simp [init_escrow, mapSeeds_isInitialized, h1, h2]
  · simp [init_escrow, mapSeeds_isInitialized, h1]

theorem finalize_escrow_ignores_seeds (f : String → String) (eng : Engine)
    (st : GuardianState) (req : FinalizeReq) (now : String) :
    (finalize_escrow (mapEngineSeed f eng) (mapSeeds f st) req now).1 =
      (finalize_escrow eng st req now).1 := by
  by_cases h1 : st.isInitialized = true
  · by_cases h2 : (truthyStr req.bounty_id && truthyInt req.deadline_block &&
      truthyStr req.server_round1 && truthyStr req.server_round2 &&
      truthyStr req.worker_round1 && truthyStr req.worker_round2) = true
    · cases hp : lookupKey st.pendingEscrows (req.bounty_id.getD "") with
      | none =>
        simp [finalize_escrow, mapSeeds_isInitialized, mapSeeds_pendingEscrows,
          h1, h2, hp]
      | some p =>
        by_cases h3 : (eng.make_multisig p.wallet "" 2
            [p.guardian_round1, req.server_round1.getD "",
             req.worker_round1.getD ""]).success = true
        · by_cases h4 : (eng.exchange_multisig_keys p.wallet ""
              [(eng.make_multisig p.wallet "" 2
                  [p.guardian_round1, req.server_round1.getD "",
                   req.worker_round1.getD ""]).multisig_info,
               req.server_round2.getD "", req.worker_round2.getD ""]).success = true
          · simp [finalize_escrow, mapSeeds_isInitialized,
              mapSeeds_pendingEscrows, mapEngineSeed_make,
              mapEngineSeed_exchange, h1, h2, hp, h3, h4]
          · simp [finalize_escrow, mapSeeds_isInitialized,
              mapSeeds_pendingEscrows, mapEngineSeed_make,
              mapEngineSeed_exchange, h1, h2, hp, h3, h4]
        · simp [finalize_escrow, mapSeeds_isInitialized,
            mapSeeds_pendingEscrows, mapEngineSeed_make,
            mapEngineSeed_exchange, h1, h2, hp, h3]
    · simp [finalize_escrow, mapSeeds_isInitialized, h1, h2]
  · simp [finalize_escrow, mapSeeds_isInitialized, h1]

theorem sync_outputs_ignores_seeds (f : String → String) (eng : Engine)
    (st : GuardianState) (bid : Option String) (other? : Option (List String)) :
    sync_outputs eng (mapSeeds f st) bid other? =
      sync_outputs eng st bid other? := by
  by_cases h1 : st.isInitialized = true
  · by_cases h2 : truthyStr bid = true
    · by_cases h3 : hasKey st.bountyData (bid.getD "") = true
      · cases hw : lookupKey st.activeWallets (bid.getD "") <;>
          simp [sync_outputs, mapSeeds_isInitialized, mapSeeds_activeWallets,
            hasKey_mapSeeds, h1, h2, h3, hw]
      · simp [sync_outputs, mapSeeds_isInitialized, hasKey_mapSeeds, h1, h2, h3]
    · simp [sync_outputs, mapSeeds_isInitialized, h1, h2]
  · simp [sync_outputs, mapSeeds_isInitialized, h1]

theorem sign_refund_ignores_seeds (f : String → String) (eng : Engine)
    (st : GuardianState) (req : RefundReq) :
    sign_refund eng (mapSeeds f st) req = sign_refund eng st req := by
  by_cases h1 : st.isInitialized = true
  · by_cases h2 : (truthyStr req.bounty_id && req.current_block.isSome &&
      truthyStr req.tx_data_hex) = true
    · cases hrec : lookupKey st.bountyData (req.bounty_id.getD "") with
      | none =>
        simp [sign_refund, mapSeeds_isInitialized, lookupKey_mapSeeds,
          h1, h2, hrec]
      | some info =>
        cases hw : lookupKey st.activeWallets (req.bounty_id.getD "") <;>
          by_cases h3 : (req.current_block.getD 0) < info.deadline_block <;>
            simp [sign_refund, mapSeeds_isInitialized, mapSeeds_activeWallets,
              lookupKey_mapSeeds, seedUpd, h1, h2, hrec, hw, h3]
    · simp [sign_refund, mapSeeds_isInitialized, h1, h2]
  · simp [sign_refund, mapSeeds_isInitialized, h1]

theorem sign_payout_ignores_seeds (f : String → String) (eng : Engine)
    (st : GuardianState) (bid tx reason : Option String) :
    sign_payout eng (mapSeeds f st) bid tx reason =
      sign_payout eng st bid tx reason := by
  by_cases h1 : st.isInitialized = true
  · by_cases h2 : (truthyStr bid && truthyStr tx) = true
    · cases hrec : lookupKey st.bountyData (bid.getD "") with
      | none =>
        simp [sign_payout, mapSeeds_isInitialized, lookupKey_mapSeeds,
          h1, h2, hrec]
      | some info =>
        cases hw : lookupKey st.activeWallets (bid.getD "") <;>
          simp [sign_payout, mapSeeds_isInitialized, mapSeeds_activeWallets,
            lookupKey_mapSeeds, seedUpd, h1, h2, hrec, hw]
    · simp [sign_payout, mapSeeds_isInitialized, h1, h2]
  · simp [sign_payout, mapSeeds_isInitialized, h1]

theorem get_bounty_ignores_seeds (f : String → String) (st : GuardianState)
    (id : String) :
    get_bounty (mapSeeds f st) id = get_bounty st id := by
  cases hrec : lookupKey st.bountyData id with
  | none =>
    simp [get_bounty, mapSeeds_pendingEscrows, mapSeeds_activeWallets,
      lookupKey_mapSeeds, hrec]
  | some info =>
    simp [get_bounty, mapSeeds_pendingEscrows, mapSeeds_activeWallets,
      lookupKey_mapSeeds, seedUpd, hrec]

theorem list_bounties_ignores_seeds (f : String → String) (st : GuardianState) :
    list_bounties (mapSeeds f st) = list_bounties st := by
  have hmap : (mapSeeds f st).bountyData.map (fun p =>
      BountySummary.mk p.1 p.2.deadline_block p.2.multisig_address
        p.2.is_ready p.2.created_at) =
      st.bountyData.map (fun p =>
        BountySummary.mk p.1 p.2.deadline_block p.2.multisig_address
          p.2.is_ready p.2.created_at) := by
    show (st.bountyData.map (seedMapEntry f)).map _ = _
    rw [List.map_map]
    rfl
  simp [list_bounties, mapSeeds_pendingEscrows, hmap]

/-- C8: no external operation reveals the stored recovery seeds — every
response is unchanged when every stored `wallet_mnemonic` (and, for
finalize, the engine's exported seed) is replaced by an arbitrary
function of it, so no response carries any information about the seeds;
in particular the record projections and the finalize response omit the
seed field. -/
theorem no_endpoint_reveals_seed (f : String → String) (st : GuardianState)
    (eng : Engine) (bid : Option String) (now : Nat) (freq : FinalizeReq)
    (snow : String) (other? : Option (List String)) (rreq : RefundReq)
    (tx reason : Option String) (id : String) :
    health (mapSeeds f st) = health st ∧
    (init_escrow eng (mapSeeds f st) bid now).1 =
      (init_escrow eng st bid now).1 ∧
    (finalize_escrow (mapEngineSeed f eng) (mapSeeds f st) freq snow).1 =
      (finalize_escrow eng st freq snow).1 ∧
    sync_outputs eng (mapSeeds f st) bid other? =
      sync_outputs eng st bid other? ∧
    sign_refund eng (mapSeeds f st) rreq = sign_refund eng st rreq ∧
    sign_payout eng (mapSeeds f st) bid tx reason =
      sign_payout eng st bid tx reason ∧
    get_bounty (mapSeeds f st) id = get_bounty st id ∧
    list_bounties (mapSeeds f st) = list_bounties st :=
  ⟨health_ignores_seeds f st, init_escrow_ignores_seeds f eng st bid now,
   finalize_escrow_ignores_seeds f eng st freq snow,
   sync_outputs_ignores_seeds f eng st bid other?,
   sign_refund_ignores_seeds f eng st rreq,
   sign_payout_ignores_seeds f eng st bid tx reason,
   get_bounty_ignores_seeds f st id, list_bounties_ignores_seeds f st⟩

theorem hasKey_setKey_ne {α : Type} (l : List (String × α)) (k k' : String)
    (v : α) (h : k' ≠ k) : hasKey (setKey l k v) k' = hasKey l k' := by
  rw [hasKey, hasKey, lookupKey_setKey_ne l k k' v h]

theorem hasKey_eraseKey_ne {α : Type} (l : List (String × α)) (k k' : String)
    (h : k' ≠ k) : hasKey (eraseKey l k) k' = hasKey l k' := by
  rw [hasKey, hasKey, lookupKey_eraseKey_ne l k k' h]

theorem atMostOne_init (eng : Engine) (st : GuardianState) (bid : Option String)
    (now : Nat) (h : atMostOne st) : atMostOne (init_escrow eng st bid now).2 := by
  by_cases h1 : st.isInitialized = true
  · by_cases h2 : truthyStr bid = true
    · by_cases h3 : hasKey st.bountyData (bid.getD "") = true
      · simpa [init_escrow, h1, h2, h3] using h
      · cases hp : lookupKey st.pendingEscrows (bid.getD "") with
        | none =>
          by_cases h4 : (eng.prepare_multisig st.nextWallet).success = true
          · simp only [init_escrow, h1, h2, h3, hp, h4]
            intro j hj
            simp only [Bool.not_eq_true] at *
            rcases hj with ⟨ha, hb⟩
            simp at ha hb
            rcases hasKey_setKey_imp _ _ _ _ ha with rfl | ha'
            · exact absurd hb (by simpa using h3)
            · exact h j ⟨ha', hb⟩
          · simp only [init_escrow, h1, h2, h3, hp, h4]
            intro j hj
            rcases hj with ⟨ha, hb⟩
            simp at ha hb
            exact h j ⟨ha, hb⟩
        | some e =>
          by_cases h4 : (eng.prepare_multisig st.nextWallet).success = true
          · simp only [init_escrow, h1, h2, h3, hp, h4]
            intro j hj
            rcases hj with ⟨ha, hb⟩
            simp at ha hb
            rcases hasKey_setKey_imp _ _ _ _ ha with rfl | ha'
            · exact absurd hb (by simpa using h3)
            · exact h j ⟨hasKey_eraseKey_imp _ _ _ ha', hb⟩
          · simp only [init_escrow, h1, h2, h3, hp, h4]
            intro j hj
            rcases hj with ⟨ha, hb⟩
            simp at ha hb
            exact h j ⟨hasKey_eraseKey_imp _ _ _ ha, hb⟩
    · simpa [init_escrow, h1, h2] using h
  · simpa [init_escrow, h1] using h

theorem atMostOne_finalize (eng : Engine) (st : GuardianState)
    (req : FinalizeReq) (now : String) (h : atMostOne st) :
    atMostOne (finalize_escrow eng st req now).2 := by
  by_cases h1 : st.isInitialized = true
  · by_cases h2 : (truthyStr req.bounty_id && truthyInt req.deadline_block &&
      truthyStr req.server_round1 && truthyStr req.server_round2 &&
      truthyStr req.worker_round1 && truthyStr req.worker_round2) = true
    · cases hp : lookupKey st.pendingEscrows (req.bounty_id.getD "") with
      | none => simpa [finalize_escrow, h1, h2, hp] using h
      | some p =>
        by_cases h3 : (eng.make_multisig p.wallet "" 2
            [p.guardian_round1, req.server_round1.getD "",
             req.worker_round1.getD ""]).success = true
        · by_cases h4 : (eng.exchange_multisig_keys p.wallet ""
              [(eng.make_multisig p.wallet "" 2
                  [p.guardian_round1, req.server_round1.getD "",
                   req.worker_round1.getD ""]).multisig_info,
               req.server_round2.getD "", req.worker_round2.getD ""]).success = true
          · simp only [finalize_escrow, h1, h2, hp, h3, h4]
            intro j hj
            rcases hj with ⟨ha, hb⟩
            simp at ha hb
            rcases hasKey_setKey_imp _ _ _ _ hb with rfl | hb'
            · rw [hasKey_eraseKey_self] at ha
              exact absurd ha (by simp)
            · exact h j ⟨hasKey_eraseKey_imp _ _ _ ha, hb'⟩
          · simpa [finalize_escrow, h1, h2, hp, h3, h4] using h
        · simpa [finalize_escrow, h1, h2, hp, h3] using h
    · simpa [finalize_escrow, h1, h2] using h
  · simpa [finalize_escrow, h1] using h

theorem atMostOne_sweep (st : GuardianState) (now : Nat) (h : atMostOne st) :
    atMostOne (cleanupSweep st now) := by
  intro j hj
  rcases hj with ⟨ha, hb⟩
  simp only [cleanupSweep] at ha hb
  exact h j ⟨hasKey_filter_imp _ _ _ ha, hb⟩

theorem atMostOne_applyOp (st : GuardianState) (op : Op) (h : atMostOne st) :
    atMostOne (applyOp st op) := by
  cases op with
  | init eng bid now => exact atMostOne_init eng st bid now h
  | finalize eng req now => exact atMostOne_finalize eng st req now h
  | sweep now => exact atMostOne_sweep st now h
  | sync eng bid other => exact h
  | refund eng req => exact h
  | payout eng b t r => exact h
  | getRecord i => exact h
  | listRecords => exact h
  | healthCheck => exact h

theorem atMostOne_applyOps (st : GuardianState) (ops : List Op)
    (h : atMostOne st) : atMostOne (applyOps st ops) := by
  induction ops generalizing st with
  | nil => exact h
  | cons op rest ih => exact ih (applyOp st op) (atMostOne_applyOp st op h)

theorem init_ok_exactlyOne (eng : Engine) (st : GuardianState)
    (bid : Option String) (now : Nat) (id r1 : String) (st' : GuardianState)
    (h : init_escrow eng st bid now = (InitResp.ok id r1, st')) :
    presentExactlyOne st' id := by
  by_cases h1 : st.isInitialized = true
  · by_cases h2 : truthyStr bid = true
    · by_cases h3 : hasKey st.bountyData (bid.getD "") = true
      · simp [init_escrow, h1, h2, h3] at h
      · cases hp : lookupKey st.pendingEscrows (bid.getD "") with
        | none =>
          by_cases h4 : (eng.prepare_multisig st.nextWallet).success = true
          · simp only [init_escrow, h1, h2, h3, hp, h4, Bool.not_true,
              Bool.false_eq_true, if_false, if_true, Prod.mk.injEq,
              InitResp.ok.injEq] at h
            rcases h with ⟨⟨hbid, _⟩, hst⟩
            subst hst
            left
            constructor
            · rw [← hbid]
              exact hasKey_setKey_self _ _ _
            · rw [← hbid]
              simpa using h3
          · simp [init_escrow, h1, h2, h3, hp, h4] at h
        | some e =>
          by_cases h4 : (eng.prepare_multisig st.nextWallet).success = true
          · simp only [init_escrow, h1, h2, h3, hp, h4, Bool.not_true,
              Bool.false_eq_true, if_false, if_true, Prod.mk.injEq,
              InitResp.ok.injEq] at h
            rcases h with ⟨⟨hbid, _⟩, hst⟩
            subst hst
            left
            constructor
            · rw [← hbid]
              exact hasKey_setKey_self _ _ _
            · rw [← hbid]
              simpa using h3
          · simp [init_escrow, h1, h2, h3, hp, h4] at h
    · simp [init_escrow, h1, h2] at h
  · simp [init_escrow, h1] at h

theorem exactlyOne_sweep (st : GuardianState) (now : Nat) (id : String)
    (h : presentExactlyOne st id)
    (hnr : ¬removesPending st (Op.sweep now) id) :
    presentExactlyOne (cleanupSweep st now) id := by
  rcases h with ⟨hp, hb⟩ | ⟨hp, hb⟩
  · left
    rw [hasKey] at hp
    rcases Option.isSome_iff_exists.mp hp with ⟨e, he⟩
    have hfresh : ¬(now - e.created_at > TTL_MS) := by
      intro hstale
      exact hnr (Or.inl ⟨now, e, rfl, he, hstale⟩)
    constructor
    · simp only [cleanupSweep, hasKey]
      rw [lookupKey_filter_pos _ _ _ _ he (by simp [hfresh])]
      rfl
    · exact hb
  · right
    constructor
    · simp only [cleanupSweep, hasKey] at hp ⊢
      rw [lookupKey_filter_none_of_none _ _ _ (by
        cases hl : lookupKey st.pendingEscrows id with
        | none => rfl
        | some v => rw [hl] at hp; simp at hp)]
      rfl
    · exact hb

theorem init_bounty_unchanged (eng : Engine) (st : GuardianState)
    (bid : Option String) (now : Nat) :
    (init_escrow eng st bid now).2.bountyData = st.bountyData := by
  by_cases h1 : st.isInitialized = true
  · by_cases h2 : truthyStr bid = true
    · by_cases h3 : hasKey st.bountyData (bid.getD "") = true
      · simp [init_escrow, h1, h2, h3]
      · cases hp : lookupKey st.pendingEscrows (bid.getD "") <;>
          by_cases h4 : (eng.prepare_multisig st.nextWallet).success = true <;>
            simp [init_escrow, h1, h2, h3, hp, h4]
    · simp [init_escrow, h1, h2]
  · simp [init_escrow, h1]

theorem init_pending_other (eng : Engine) (st : GuardianState)
    (bid : Option String) (now : Nat) (id : String)
    (hne : id ≠ bid.getD "") :
    hasKey (init_escrow eng st bid now).2.pendingEscrows id =
      hasKey st.pendingEscrows id := by
  by_cases h1 : st.isInitialized = true
  · by_cases h2 : truthyStr bid = true
    · by_cases h3 : hasKey st.bountyData (bid.getD "") = true
      · simp [init_escrow, h1, h2, h3]
      · cases hp : lookupKey st.pendingEscrows (bid.getD "") with
        | none =>
          by_cases h4 : (eng.prepare_multisig st.nextWallet).success = true
          · simp [init_escrow, h1, h2, h3, hp, h4,
              hasKey_setKey_ne st.pendingEscrows (bid.getD "") id _ hne]
          · simp [init_escrow, h1, h2, h3, hp, h4]
        | some e =>
          by_cases h4 : (eng.prepare_multisig st.nextWallet).success = true
          · simp [init_escrow, h1, h2, h3, hp, h4]
            rw [hasKey_setKey_ne _ _ _ _ hne, hasKey_eraseKey_ne _ _ _ hne]
          · simp [init_escrow, h1, h2, h3, hp, h4]
            rw [hasKey_eraseKey_ne _ _ _ hne]
    · simp [init_escrow, h1, h2]
  · simp [init_escrow, h1]

theorem exactlyOne_init (eng : Engine) (st : GuardianState)
    (bid : Option String) (now : Nat) (id : String)
    (h : presentExactlyOne st id)
    (hnr : ¬removesPending st (Op.init eng bid now) id) :
    presentExactlyOne (init_escrow eng st bid now).2 id := by
  by_cases h1 : st.isInitialized = true
  case neg => simpa [init_escrow, h1] using h
  by_cases h2 : truthyStr bid = true
  case neg => simpa [init_escrow, h1, h2] using h
  by_cases h3 : hasKey st.bountyData (bid.getD "") = true
  case pos => simpa [init_escrow, h1, h2, h3] using h
  by_cases hbe : bid.getD "" = id
  · have hbf : hasKey st.bountyData id = false := by
      rw [← hbe]; simpa using h3
    rcases h with ⟨hp, hb⟩ | ⟨hp, hb⟩
    · rw [hasKey] at hp
      rcases Option.isSome_iff_exists.mp hp with ⟨e, he⟩
      have he' : lookupKey st.pendingEscrows (bid.getD "") = some e := by
        rw [hbe]; exact he
      have hbid_some : bid = some id := by
        cases bid with
        | none => simp [truthyStr] at h2
        | some s =>
          have hs : s = id := by simpa using hbe
          rw [hs]
      have hprep : (eng.prepare_multisig st.nextWallet).success = true := by
        by_contra hf
        exact hnr (Or.inr ⟨eng, now, by rw [hbid_some], by simpa using hf⟩)
      have hstate : (init_escrow eng st bid now).2.pendingEscrows =
          setKey (eraseKey st.pendingEscrows (bid.getD "")) (bid.getD "")
            ⟨st.nextWallet,
             (eng.prepare_multisig st.nextWallet).multisig_info, now⟩ := by
        simp [init_escrow, h1, h2, h3, he', hprep]
      left
      constructor
      · rw [hstate, hbe]
        exact hasKey_setKey_self _ _ _
      · rw [init_bounty_unchanged]
        exact hbf
    · exfalso
      rw [← hbe] at hb
      simp [hb] at h3
  · have hne : id ≠ bid.getD "" := fun hh => hbe hh.symm
    rcases h with ⟨hp, hb⟩ | ⟨hp, hb⟩
    · left
      exact ⟨by rw [init_pending_other eng st bid now id hne]; exact hp,
             by rw [init_bounty_unchanged]; exact hb⟩
    · right
      exact ⟨by rw [init_pending_other eng st bid now id hne]; exact hp,
             by rw [init_bounty_unchanged]; exact hb⟩

theorem finalize_pending_other (eng : Engine) (st : GuardianState)
    (req : FinalizeReq) (now : String) (id : String)
    (hne : id ≠ req.bounty_id.getD "") :
    hasKey (finalize_escrow eng st req now).2.pendingEscrows id =
      hasKey st.pendingEscrows id := by
  by_cases h1 : st.isInitialized = true
  · by_cases h2 : (truthyStr req.bounty_id && truthyInt req.deadline_block &&
      truthyStr req.server_round1 && truthyStr req.server_round2 &&
      truthyStr req.worker_round1 && truthyStr req.worker_round2) = true
    · cases hp : lookupKey st.pendingEscrows (req.bounty_id.getD "") with
      | none => simp [finalize_escrow, h1, h2, hp]
      | some p =>
        by_cases h3 : (eng.make_multisig p.wallet "" 2
            [p.guardian_round1, req.server_round1.getD "",
             req.worker_round1.getD ""]).success = true
        · by_cases h4 : (eng.exchange_multisig_keys p.wallet ""
              [(eng.make_multisig p.wallet "" 2
                  [p.guardian_round1, req.server_round1.getD "",
                   req.worker_round1.getD ""]).multisig_info,
               req.server_round2.getD "", req.worker_round2.getD ""]).success = true
          · simp [finalize_escrow, h1, h2, hp, h3, h4]
            rw [hasKey_eraseKey_ne _ _ _ hne]
          · simp [finalize_escrow, h1, h2, hp, h3, h4]
        · simp [finalize_escrow, h1, h2, hp, h3]
    · simp [finalize_escrow, h1, h2]
  · simp [finalize_escrow, h1]

theorem finalize_bounty_other (eng : Engine) (st : GuardianState)
    (req : FinalizeReq) (now : String) (id : String)
    (hne : id ≠ req.bounty_id.getD "") :
    hasKey (finalize_escrow eng st req now).2.bountyData id =
      hasKey st.bountyData id := by
  by_cases h1 : st.isInitialized = true
  · by_cases h2 : (truthyStr req.bounty_id && truthyInt req.deadline_block &&
      truthyStr req.server_round1 && truthyStr req.server_round2 &&
      truthyStr req.worker_round1 && truthyStr req.worker_round2) = true
    · cases hp : lookupKey st.pendingEscrows (req.bounty_id.getD "") with
      | none => simp [finalize_escrow, h1, h2, hp]
      | some p =>
        by_cases h3 : (eng.make_multisig p.wallet "" 2
            [p.guardian_round1, req.server_round1.getD "",
             req.worker_round1.getD ""]).success = true
        · by_cases h4 : (eng.exchange_multisig_keys p.wallet ""
              [(eng.make_multisig p.wallet "" 2
                  [p.guardian_round1, req.server_round1.getD "",
                   req.worker_round1.getD ""]).multisig_info,
               req.server_round2.getD "", req.worker_round2.getD ""]).success = true
          · simp [finalize_escrow, h1, h2, hp, h3, h4]
            rw [hasKey_setKey_ne _ _ _ _ hne]
          · simp [finalize_escrow, h1, h2, hp, h3, h4]
        · simp [finalize_escrow, h1, h2, hp, h3]
    · simp [finalize_escrow, h1, h2]
  · simp [finalize_escrow, h1]

theorem exactlyOne_finalize (eng : Engine) (st : GuardianState)
    (req : FinalizeReq) (now : String) (id : String)
    (h : presentExactlyOne st id) :
    presentExactlyOne (finalize_escrow eng st req now).2 id := by
  by_cases hbe : req.bounty_id.getD "" = id
  · by_cases h1 : st.isInitialized = true
    case neg => simpa [finalize_escrow, h1] using h
    by_cases h2 : (truthyStr req.bounty_id && truthyInt req.deadline_block &&
      truthyStr req.server_round1 && truthyStr req.server_round2 &&
      truthyStr req.worker_round1 && truthyStr req.worker_round2) = true
    case neg => simpa [finalize_escrow, h1, h2] using h
    cases hp : lookupKey st.pendingEscrows (req.bounty_id.getD "") with
    | none => simpa [finalize_escrow, h1, h2, hp] using h
    | some p =>
      by_cases h3 : (eng.make_multisig p.wallet "" 2
          [p.guardian_round1, req.server_round1.getD "",
           req.worker_round1.getD ""]).success = true
      · by_cases h4 : (eng.exchange_multisig_keys p.wallet ""
            [(eng.make_multisig p.wallet "" 2
                [p.guardian_round1, req.server_round1.getD "",
                 req.worker_round1.getD ""]).multisig_info,
             req.server_round2.getD "", req.worker_round2.getD ""]).success = true
        · right
          constructor
          · have hstate : (finalize_escrow eng st req now).2.pendingEscrows =
                eraseKey st.pendingEscrows (req.bounty_id.getD "") := by
              simp [finalize_escrow, h1, h2, hp, h3, h4]
            rw [hstate, hbe]
            exact hasKey_eraseKey_self _ _
          · have hstate : hasKey (finalize_escrow eng st req
                now).2.bountyData (req.bounty_id.getD "") = true := by
              simp [finalize_escrow, h1, h2, hp, h3, h4, hasKey_setKey_self]
            rw [← hbe]
            exact hstate
        · simpa [finalize_escrow, h1, h2, hp, h3, h4] using h
      · simpa [finalize_escrow, h1, h2, hp, h3] using h
  · have hne : id ≠ req.bounty_id.getD "" := fun hh => hbe hh.symm
    rcases h with ⟨hp, hb⟩ | ⟨hp, hb⟩
    · left
      exact ⟨by rw [finalize_pending_other eng st req now id hne]; exact hp,
             by rw [finalize_bounty_other eng st req now id hne]; exact hb⟩
    · right
      exact ⟨by rw [finalize_pending_other eng st req now id hne]; exact hp,
             by rw [finalize_bounty_other eng st req now id hne]; exact hb⟩

theorem exactlyOne_applyOp (st : GuardianState) (op : Op) (id : String)
    (h : presentExactlyOne st id) (hnr : ¬removesPending st op id) :
    presentExactlyOne (applyOp st op) id := by
  cases op with
  | init eng bid now => exact exactlyOne_init eng st bid now id h hnr
  | finalize eng req now => exact exactlyOne_finalize eng st req now id h
  | sweep now => exact exactlyOne_sweep st now id h hnr
  | sync eng bid other => exact h
  | refund eng req => exact h
  | payout eng b t r => exact h
  | getRecord i => exact h
  | listRecords => exact h
  | healthCheck => exact h

/-- Counterexample to C6: after a successful begin for "b1" followed by
one TTL sweep — with no operator-external deletion — the id is present
in neither the Pending Session Table nor the Bounty Registry, refuting
"present in exactly one until an operator-external deletion". -/
theorem begin_then_sweep_leaves_neither :
    (init_escrow testEngine initialState (some "b1") 0).1 =
      InitResp.ok "b1" "prep-0" ∧
    hasKey (applyOps initialState
      [Op.init testEngine (some "b1") 0, Op.sweep 300001]).pendingEscrows
      "b1" = false ∧
    hasKey (applyOps initialState
      [Op.init testEngine (some "b1") 0, Op.sweep 300001]).bountyData
      "b1" = false :=
  ⟨rfl, rfl, rfl⟩

/-- C6 (amended): for every escrow id and every reachable state, the id
is in at most one of the Pending Session Table and the Bounty Registry —
never both; a successful begin leaves it in exactly one, and it remains
in exactly one under every subsequent operation except a sweep evicting
its stale session or a begin replacement whose round-1 engine call fails
(the two in-core removals), besides operator-external deletion. -/
theorem escrow_id_single_residence :
    (∀ st ops, atMostOne st → atMostOne (applyOps st ops)) ∧
    (∀ eng st bid now id r1 st',
      init_escrow eng st bid now = (InitResp.ok id r1, st') →
      presentExactlyOne st' id) ∧
    (∀ st op id, presentExactlyOne st id → ¬removesPending st op id →
      presentExactlyOne (applyOp st op) id) :=
  ⟨atMostOne_applyOps,
   fun eng st bid now id r1 st' h =>
     init_ok_exactlyOne eng st bid now id r1 st' h,
   fun st op id h hnr => exactlyOne_applyOp st op id h hnr⟩

/-- Witness for the amended C6: the invariant holds along a concrete
successful begin, and survives a further (non-evicting) operation. -/
theorem escrow_id_single_residence_witness :
    atMostOne (applyOps initialState [Op.init testEngine (some "b1") 0]) ∧
    presentExactlyOne
      (init_escrow testEngine initialState (some "b1") 0).2 "b1" ∧
    presentExactlyOne
      (applyOp (init_escrow testEngine initialState (some "b1") 0).2
        Op.healthCheck) "b1" := by
  have h0 : atMostOne initialState := by
    intro id hid
    simp [initialState, hasKey, lookupKey] at hid
  have hB := escrow_id_single_residence.2.1 testEngine initialState
    (some "b1") 0 "b1" "prep-0"
    (init_escrow testEngine initialState (some "b1") 0).2 rfl
  refine ⟨escrow_id_single_residence.1 initialState _ h0, hB, ?_⟩
  exact escrow_id_single_residence.2.2 _ Op.healthCheck "b1" hB
    (by rintro (⟨n, e, hop, -, -⟩ | ⟨en, n, hop, -⟩) <;> exact Op.noConfusion hop)
